import Mathlib

/-!
Shallow embedding of the `capital-api-client` TypeScript library
(`src/CapitalAPI.ts` and the `CapitalWebSocket` class), together with
proofs about its session handling, subscription bookkeeping, reconnect
budget and message dispatch.

Conventions of the embedding:
* JavaScript `Map<string, WebSocketMessage>` becomes an association list
  that preserves insertion order; `Map.set` replaces in place or appends,
  `Map.delete` removes the (unique) entry with the key.
* `this.ws?.readyState` becomes `readyState : Option Nat` (`none` when
  `this.ws` is `undefined`; `some 1` is the OPEN state).
* Methods that may `throw` return a result record with a `thrown` field;
  event-emitter calls are recorded in an `events` list and socket sends in
  a `sent` list.
* `JSON.parse` is the JavaScript runtime, not code of this repository; the
  message handler is therefore modelled over the outcome of the parse
  (`Except String InboundMsg`).
-/

namespace CapitalClient

/-- Chart resolutions, the `Resolution` string union of `src/types.ts`. -/
inductive Resolution
  | MINUTE
  | MINUTE_5
  | MINUTE_15
  | MINUTE_30
  | HOUR
  | HOUR_4
  | DAY
  | WEEK
deriving DecidableEq, Repr

/-- Underlying string value of a `Resolution` (in TypeScript the values are
these strings themselves). -/
def Resolution.toStr : Resolution → String
  | .MINUTE => "MINUTE"
  | .MINUTE_5 => "MINUTE_5"
  | .MINUTE_15 => "MINUTE_15"
  | .MINUTE_30 => "MINUTE_30"
  | .HOUR => "HOUR"
  | .HOUR_4 => "HOUR_4"
  | .DAY => "DAY"
  | .WEEK => "WEEK"

/-- OHLC chart type, the `'classic' | 'heikin-ashi'` union. -/
inductive OHLCType
  | classic
  | heikinAshi
deriving DecidableEq, Repr

/-- Underlying string value of an `OHLCType`. -/
def OHLCType.toStr : OHLCType → String
  | .classic => "classic"
  | .heikinAshi => "heikin-ashi"

/-- Payload of an outbound WebSocket frame: `MarketDataSubscription`,
`OHLCSubscription`, or the ad-hoc unsubscribe payload of
`unsubscribeFromOHLCData` (which carries a `types` array). -/
inductive WSPayload
  | marketData (epics : List String)
  | ohlcSub (epics : List String) (resolutions : Option (List Resolution))
      (ohlcType : Option OHLCType)
  | ohlcUnsub (epics : List String) (resolutions : Option (List Resolution))
      (types : Option (List OHLCType))
deriving DecidableEq, Repr

/-- The `WebSocketMessage` envelope of `src/types.ts`:
`{destination, correlationId, cst, securityToken, payload?}`. -/
structure WebSocketMessage where
  destination : String
  correlationId : String
  cst : String
  securityToken : String
  payload : Option WSPayload
deriving DecidableEq, Repr

/-- An inbound frame after a successful `JSON.parse`: the dispatch switch
only looks at `message.destination` (possibly absent); the payload is kept
as the uninterpreted remainder of the frame. -/
structure InboundMsg where
  destination : Option String
  payload : Option String
deriving DecidableEq, Repr

/-- Events emitted through the `EventEmitter` base class of
`CapitalWebSocket`. -/
inductive WSEvent
  | connectEv
  | disconnectEv
  | errorEv (msg : String)
  | quoteEv (m : InboundMsg)
  | ohlcDataEv (m : InboundMsg)
  | pongEv (m : InboundMsg)
  | subscriptionEv (m : InboundMsg)
  | messageEv (m : InboundMsg)
deriving DecidableEq, Repr

/-- Mutable fields of a `CapitalWebSocket` instance. -/
structure WSState where
  cst : String
  securityToken : String
  streamingUrl : String
  correlationIdCounter : Nat
  reconnectInterval : Nat
  maxReconnectAttempts : Nat
  reconnectAttempts : Nat
  isConnected : Bool
  subscriptions : List (String × WebSocketMessage)
  readyState : Option Nat
deriving DecidableEq, Repr

/-- The `CapitalWebSocketConfig` constructor argument. -/
structure CapitalWebSocketConfig where
  cst : String
  securityToken : String
  streamingUrl : Option String
deriving DecidableEq, Repr

/-- The `CapitalWebSocket` constructor. -/
def mkCapitalWebSocket (config : CapitalWebSocketConfig) : WSState :=
  { cst := config.cst
    securityToken := config.securityToken
    streamingUrl :=
      config.streamingUrl.getD "wss://api-streaming-capital.backend-capital.com/connect"
    correlationIdCounter := 0
    reconnectInterval := 5000
    maxReconnectAttempts := 5
    reconnectAttempts := 0
    isConnected := false
    subscriptions := []
    readyState := none }

/-- `Map.set`: replace the entry with this key in place, otherwise append
at the end (JavaScript `Map` preserves insertion order). -/
def mapSet (m : List (String × WebSocketMessage)) (k : String)
    (v : WebSocketMessage) : List (String × WebSocketMessage) :=
  match m with
  | [] => [(k, v)]
  | p :: rest => if p.1 = k then (k, v) :: rest else p :: mapSet rest k v

/-- `Map.delete`: remove the entry with this key.  In every state the class
can reach, keys are unique, so removing every pair with the key coincides
with removing the one entry a JavaScript `Map` holds for it. -/
def mapDelete (m : List (String × WebSocketMessage)) (k : String) :
    List (String × WebSocketMessage) :=
  m.filter (fun p => p.1 ≠ k)

/-- `Map.get`: the value stored under a key. -/
def mapGet (m : List (String × WebSocketMessage)) (k : String) :
    Option WebSocketMessage :=
  match m with
  | [] => none
  | p :: rest => if p.1 = k then some p.2 else mapGet rest k

/-- `epics.join(',')` on an array of strings. -/
def joinComma (xs : List String) : String := String.intercalate "," xs

/-- JavaScript `xs?.join(',') || d`: `undefined` and the empty string (the
join of an empty array) are falsy, any other join result is kept. -/
def joinOr (xs : Option (List String)) (d : String) : String :=
  match xs with
  | none => d
  | some l => if joinComma l = "" then d else joinComma l

/-- Subscription-table key used by `subscribeToMarketData` and
`unsubscribeFromMarketData`. -/
def marketDataKey (epics : List String) : String :=
  "marketData_" ++ joinComma epics

/-- Subscription-table key of `subscribeToOHLCData`:
`ohlc_(epics.join)_(resolutions?.join(',') || 'default')_(type || 'classic')`. -/
def ohlcSubscribeKey (epics : List String) (resolutions : Option (List Resolution))
    (t : Option OHLCType) : String :=
  "ohlc_" ++ joinComma epics ++ "_" ++
    joinOr (resolutions.map (List.map Resolution.toStr)) "default" ++ "_" ++
    (t.map OHLCType.toStr).getD "classic"

/-- Subscription-table key of `unsubscribeFromOHLCData`:
`ohlc_(epics.join)_(resolutions?.join(',') || 'default')_(types?.join(',') || 'classic')`. -/
def ohlcUnsubscribeKey (epics : List String) (resolutions : Option (List Resolution))
    (types : Option (List OHLCType)) : String :=
  "ohlc_" ++ joinComma epics ++ "_" ++
    joinOr (resolutions.map (List.map Resolution.toStr)) "default" ++ "_" ++
    joinOr (types.map (List.map OHLCType.toStr)) "classic"

/-- `getNextCorrelationId`: pre-increment the counter and render it. -/
def getNextCorrelationId (s : WSState) : String × WSState :=
  (Nat.repr (s.correlationIdCounter + 1),
   { s with correlationIdCounter := s.correlationIdCounter + 1 })

/-- `createMessage`: build the envelope with the next correlation id and the
tokens currently stored on the instance. -/
def createMessage (s : WSState) (destination : String) (payload : Option WSPayload) :
    WebSocketMessage × WSState :=
  let cid := getNextCorrelationId s
  ({ destination := destination
     correlationId := cid.1
     cst := s.cst
     securityToken := s.securityToken
     payload := payload }, cid.2)

/-- The socket-open test of `send` and `isConnectedToServer`:
`this.ws && this.ws.readyState === 1`. -/
def wsIsOpen (s : WSState) : Bool := s.readyState = some 1

/-- `send`: put the frame on the socket when it is open, otherwise throw
`'WebSocket is not connected'`.  The pair is (frames actually sent, thrown
error message). -/
def sendStep (s : WSState) (m : WebSocketMessage) :
    List WebSocketMessage × Option String :=
  if wsIsOpen s then ([m], none) else ([], some "WebSocket is not connected")

/-- Result of invoking a method on the instance: the updated fields, the
frames sent, the events emitted, and the error thrown, if any. -/
structure CallResult where
  state : WSState
  sent : List WebSocketMessage
  events : List WSEvent
  thrown : Option String
deriving Repr

/-- `subscribeToMarketData`: create the message, register it in the table,
then send it. -/
def subscribeToMarketData (s : WSState) (epics : List String) : CallResult :=
  let cm := createMessage s "marketData.subscribe" (some (.marketData epics))
  let s2 := { cm.2 with
    subscriptions := mapSet cm.2.subscriptions (marketDataKey epics) cm.1 }
  let r := sendStep s2 cm.1
  { state := s2, sent := r.1, events := [], thrown := r.2 }

/-- `unsubscribeFromMarketData`: create the message, delete the table entry,
then send it. -/
def unsubscribeFromMarketData (s : WSState) (epics : List String) : CallResult :=
  let cm := createMessage s "marketData.unsubscribe" (some (.marketData epics))
  let s2 := { cm.2 with
    subscriptions := mapDelete cm.2.subscriptions (marketDataKey epics) }
  let r := sendStep s2 cm.1
  { state := s2, sent := r.1, events := [], thrown := r.2 }

/-- `subscribeToOHLCData`: create the message, register it under the OHLC
key, then send it. -/
def subscribeToOHLCData (s : WSState) (epics : List String)
    (resolutions : Option (List Resolution)) (t : Option OHLCType) : CallResult :=
  let cm := createMessage s "OHLCMarketData.subscribe"
    (some (.ohlcSub epics resolutions t))
  let s2 := { cm.2 with
    subscriptions := mapSet cm.2.subscriptions (ohlcSubscribeKey epics resolutions t) cm.1 }
  let r := sendStep s2 cm.1
  { state := s2, sent := r.1, events := [], thrown := r.2 }

/-- `unsubscribeFromOHLCData`: create the message, delete the entry under
the unsubscribe key, then send it. -/
def unsubscribeFromOHLCData (s : WSState) (epics : List String)
    (resolutions : Option (List Resolution)) (types : Option (List OHLCType)) :
    CallResult :=
  let cm := createMessage s "OHLCMarketData.unsubscribe"
    (some (.ohlcUnsub epics resolutions types))
  let s2 := { cm.2 with
    subscriptions := mapDelete cm.2.subscriptions (ohlcUnsubscribeKey epics resolutions types) }
  let r := sendStep s2 cm.1
  { state := s2, sent := r.1, events := [], thrown := r.2 }

/-- `updateTokens`: overwrite the two stored tokens; nothing else on the
instance is touched. -/
def updateTokens (s : WSState) (cst securityToken : String) : WSState :=
  { s with cst := cst, securityToken := securityToken }

/-- Send a list of frames one after the other (the `forEach` in `onOpen`);
a thrown send aborts the iteration. -/
def sendAll (s : WSState) (ms : List WebSocketMessage) :
    List WebSocketMessage × Option String :=
  match ms with
  | [] => ([], none)
  | m :: rest =>
    match sendStep s m with
    | (sent, none) =>
      let r := sendAll s rest
      (sent ++ r.1, r.2)
    | (sent, some e) => (sent, some e)

/-- `onOpen`: mark the instance connected, reset the reconnect counter, emit
`connect`, and re-send every stored subscription in table order. -/
def onOpen (s : WSState) : CallResult :=
  let s1 := { s with isConnected := true, reconnectAttempts := 0 }
  let r := sendAll s1 (s1.subscriptions.map Prod.snd)
  { state := s1, sent := r.1, events := [.connectEv], thrown := r.2 }

/-- Result of the close handler: the updated fields, the events emitted, and
whether a delayed `connect()` was scheduled. -/
structure CloseResult where
  state : WSState
  events : List WSEvent
  reconnectScheduled : Bool
deriving Repr

/-- `onClose`: mark the instance disconnected, emit `disconnect`; under the
reconnect budget increment the counter and schedule a delayed `connect()`,
otherwise emit the terminal error. -/
def onClose (s : WSState) : CloseResult :=
  let s1 := { s with isConnected := false }
  if s1.reconnectAttempts < s1.maxReconnectAttempts then
    { state := { s1 with reconnectAttempts := s1.reconnectAttempts + 1 }
      events := [.disconnectEv]
      reconnectScheduled := true }
  else
    { state := s1
      events := [.disconnectEv, .errorEv "Max reconnection attempts reached"]
      reconnectScheduled := false }

/-- `onMessage`: parse the frame; on failure the catch block emits one
`error` event built from the parse error; on success dispatch on
`message.destination`.  The handler itself never throws (the whole body is
inside `try`/`catch`). -/
def onMessage (s : WSState) (parsed : Except String InboundMsg) : CallResult :=
  match parsed with
  | .error e =>
    { state := s, sent := []
      events := [.errorEv ("Failed to parse WebSocket message: " ++ e)]
      thrown := none }
  | .ok m =>
    match m.destination with
    | some "quote" => { state := s, sent := [], events := [.quoteEv m], thrown := none }
    | some "ohlc.event" => { state := s, sent := [], events := [.ohlcDataEv m], thrown := none }
    | some "ping" => { state := s, sent := [], events := [.pongEv m], thrown := none }
    | some "marketData.subscribe" =>
      { state := s, sent := [], events := [.subscriptionEv m], thrown := none }
    | some "marketData.unsubscribe" =>
      { state := s, sent := [], events := [.subscriptionEv m], thrown := none }
    | some "OHLCMarketData.subscribe" =>
      { state := s, sent := [], events := [.subscriptionEv m], thrown := none }
    | some "OHLCMarketData.unsubscribe" =>
      { state := s, sent := [], events := [.subscriptionEv m], thrown := none }
    | _ => { state := s, sent := [], events := [.messageEv m], thrown := none }

/-- `onError`: relay the socket error as an `error` event. -/
def onErrorRelay (s : WSState) (e : String) : CallResult :=
  { state := s, sent := [], events := [.errorEv e], thrown := none }

/-- `disconnect()`: close and drop the socket, clear the flag and the whole
subscription table. -/
def wsDisconnect (s : WSState) : WSState :=
  { s with readyState := none, isConnected := false, subscriptions := [] }

/-- `isConnectedToServer`: the flag and the live socket state together. -/
def isConnectedToServer (s : WSState) : Bool :=
  s.isConnected && wsIsOpen s

/-- Iterate the close handler: the state after `n` consecutive close events
with no successful open in between. -/
def closeIter (s : WSState) : Nat → WSState
  | 0 => s
  | n + 1 => closeIter (onClose s).state n

/-- Number of reconnection attempts scheduled over a run of `n` consecutive
close events. -/
def closeRunSchedCount (s : WSState) : Nat → Nat
  | 0 => 0
  | n + 1 =>
    (if (onClose s).reconnectScheduled then 1 else 0) +
      closeRunSchedCount (onClose s).state n

/-- Substring test: `containsSub hay needle` holds when `needle` occurs
contiguously inside `hay`. -/
def containsSub (hay needle : String) : Bool :=
  (List.range (hay.data.length + 1)).any
    (fun i => needle.data.isPrefixOf (hay.data.drop i))

/-! Model of the REST client `CapitalAPI` (`src/CapitalAPI.ts`), restricted
to its authentication state. -/

/-- Mutable authentication fields of a `CapitalAPI` instance. -/
structure APIState where
  apiKey : Option String
  cst : Option String
  securityToken : Option String
deriving DecidableEq, Repr

/-- JavaScript truthiness of an optional string: `undefined` and the empty
string are falsy. -/
def truthy (o : Option String) : Bool :=
  match o with
  | none => false
  | some s => s ≠ ""

/-- `clearSession`: drop both stored session tokens. -/
def clearSession (s : APIState) : APIState :=
  { s with cst := none, securityToken := none }

/-- `setSessionTokens`: store the two tokens extracted from the login
response headers. -/
def setSessionTokens (s : APIState) (cst securityToken : String) : APIState :=
  { s with cst := some cst, securityToken := some securityToken }

/-- `isAuthenticated`: `!!this.cst && !!this.securityToken`. -/
def isAuthenticated (s : APIState) : Bool :=
  truthy s.cst && truthy s.securityToken

/-- Response interceptor installed on the shared axios client in the
constructor: on an error response whose `status` is 401, clear the session;
the error is then rethrown to the caller. -/
def interceptResponseError (s : APIState) (status : Option Nat) : APIState :=
  if status = some 401 then clearSession s else s

/-- A REST call issued through the shared `this.client` (every endpoint
method except the login request of `createSession`) that receives an HTTP
error response: the response interceptor runs, then the error with this
status propagates to the caller. -/
def clientCallErrorResponse (s : APIState) (status : Nat) :
    APIState × Option Nat :=
  (interceptResponseError s (some status), some status)

/-- `createSession` receiving an HTTP error response: after the API-key
guard, the request is made on a temporary axios client created inside the
method without the response interceptor ("to avoid interceptor issues"), so
the 401 branch of the shared client never runs; the catch block rethrows
`API Error (status): message` and the stored tokens are left untouched. -/
def createSessionErrorResponse (s : APIState) (status : Nat) (message : String) :
    APIState × Option String :=
  if truthy s.apiKey then
    (s, some ("API Error (" ++ Nat.repr status ++ "): " ++ message))
  else
    (s, some "API key is required to create session")

/-- Demo instance used by the concrete witnesses: constructed with
`{cst: 'a', securityToken: 'b'}` and no streaming-URL override. -/
def wsDemo : WSState :=
  mkCapitalWebSocket { cst := "a", securityToken := "b", streamingUrl := none }

/-- The demo instance with its socket in the OPEN state. -/
def wsDemoOpen : WSState := { wsDemo with readyState := some 1 }

/-- The open demo instance after `subscribeToMarketData(['GOLD'])`. -/
def wsDemoSub : WSState := (subscribeToMarketData wsDemoOpen ["GOLD"]).state

/-! Helper lemmas about the association-list map and the send loop. -/

theorem mapGet_mapDelete (m : List (String × WebSocketMessage)) (k : String) :
    mapGet (mapDelete m k) k = none := by
  induction m with
  | nil => rfl
  | cons p rest ih =>
    by_cases h : p.1 = k
    · simpa [mapDelete, List.filter_cons, h] using ih
    · simpa [mapDelete, List.filter_cons, h, mapGet] using ih

theorem mapGet_mapSet_self (m : List (String × WebSocketMessage)) (k : String)
    (v : WebSocketMessage) : mapGet (mapSet m k v) k = some v := by
  induction m with
  | nil => simp [mapSet, mapGet]
  | cons p rest ih =>
    by_cases h : p.1 = k
    · simp [mapSet, mapGet, h]
    · simpa [mapSet, mapGet, h] using ih

theorem mem_map_snd_of_mapGet (m : List (String × WebSocketMessage))
    (k : String) (v : WebSocketMessage) (h : mapGet m k = some v) :
    v ∈ m.map Prod.snd := by
  induction m with
  | nil => simp [mapGet] at h
  | cons p rest ih =>
    by_cases hk : p.1 = k
    · simp [mapGet, hk] at h
      simp [h]
    · simp [mapGet, hk] at h
      simp [ih h]

theorem sendAll_open (s : WSState) (h : wsIsOpen s = true) :
    ∀ ms : List WebSocketMessage, sendAll s ms = (ms, none) := by
  intro ms
  induction ms with
  | nil => rfl
  | cons m rest ih => simp [sendAll, sendStep, h, ih]

/-! Helper lemmas about the close handler and runs of consecutive closes. -/

theorem onClose_lt (s : WSState)
    (h : s.reconnectAttempts < s.maxReconnectAttempts) :
    (onClose s).state =
      { s with isConnected := false, reconnectAttempts := s.reconnectAttempts + 1 } ∧
    (onClose s).reconnectScheduled = true ∧
    (onClose s).events = [.disconnectEv] := by
  simp [onClose, h]

theorem onClose_ge (s : WSState)
    (h : ¬ s.reconnectAttempts < s.maxReconnectAttempts) :
    (onClose s).state = { s with isConnected := false } ∧
    (onClose s).reconnectScheduled = false ∧
    (onClose s).events =
      [.disconnectEv, .errorEv "Max reconnection attempts reached"] := by
  simp [onClose, h]

theorem closeIter_fields (n : Nat) : ∀ s : WSState,
    s.reconnectAttempts ≤ s.maxReconnectAttempts →
    (closeIter s n).reconnectAttempts =
      min (s.reconnectAttempts + n) s.maxReconnectAttempts ∧
    (closeIter s n).maxReconnectAttempts = s.maxReconnectAttempts := by
  induction n with
  | zero =>
    intro s h
    constructor
    · simp [closeIter]; omega
    · rfl
  | succ n ih =>
    intro s h
    by_cases hc : s.reconnectAttempts < s.maxReconnectAttempts
    · have hst := (onClose_lt s hc).1
      have := ih (onClose s).state (by rw [hst]; simp; omega)
      rw [hst] at this
      simp at this
      simp [closeIter, hst]
      omega
    · have hst := (onClose_ge s hc).1
      have := ih (onClose s).state (by rw [hst]; simpa using h)
      rw [hst] at this
      simp at this
      simp [closeIter, hst]
      omega

theorem closeRunSchedCount_eq (n : Nat) : ∀ s : WSState,
    s.reconnectAttempts ≤ s.maxReconnectAttempts →
    closeRunSchedCount s n =
      min n (s.maxReconnectAttempts - s.reconnectAttempts) := by
  induction n with
  | zero => intro s _; simp [closeRunSchedCount]
  | succ n ih =>
    intro s h
    by_cases hc : s.reconnectAttempts < s.maxReconnectAttempts
    · have hst := (onClose_lt s hc).1
      have hsched := (onClose_lt s hc).2.1
      have := ih (onClose s).state (by rw [hst]; simp; omega)
      rw [hst] at this
      simp at this
      simp [closeRunSchedCount, hsched, hst, this]
      omega
    · have hst := (onClose_ge s hc).1
      have hsched := (onClose_ge s hc).2.1
      have := ih (onClose s).state (by rw [hst]; simpa using h)
      rw [hst] at this
      simp at this
      simp [closeRunSchedCount, hsched, hst, this]
      omega

/-! Claim theorems. -/

/-- Claim C1: on an instance with the default budget `maxReconnectAttempts = 5`
and a fresh attempt counter, over a run of consecutive socket closes with no
successful open in between, the first five closes each schedule one delayed
reconnection attempt and emit no error; the close that reports the failure of
the 5th scheduled reconnection attempt emits the terminal `error` event whose
message contains "Max reconnection attempts" and schedules nothing; and over a
run of any length at most 5 reconnection attempts are ever scheduled, so a 6th
connection attempt is never scheduled or made by the instance. -/
theorem reconnect_budget_terminal (s : WSState)
    (hA : s.reconnectAttempts = 0) (hM : s.maxReconnectAttempts = 5) :
    (∀ k, k < 5 →
      (onClose (closeIter s k)).reconnectScheduled = true ∧
      (onClose (closeIter s k)).events = [.disconnectEv]) ∧
    ((onClose (closeIter s 5)).reconnectScheduled = false ∧
      (onClose (closeIter s 5)).events =
        [.disconnectEv, .errorEv "Max reconnection attempts reached"] ∧
      containsSub "Max reconnection attempts reached" "Max reconnection attempts" = true) ∧
    (∀ n, closeRunSchedCount s n = min n 5) := by
  have hle : s.reconnectAttempts ≤ s.maxReconnectAttempts := by omega
  refine ⟨?_, ⟨?_, ?_, by decide⟩, ?_⟩
  · intro k hk
    have hf := closeIter_fields k s hle
    have hlt : (closeIter s k).reconnectAttempts <
        (closeIter s k).maxReconnectAttempts := by omega
    exact ⟨(onClose_lt _ hlt).2.1, (onClose_lt _ hlt).2.2⟩
  · have hf := closeIter_fields 5 s hle
    have hge : ¬ (closeIter s 5).reconnectAttempts <
        (closeIter s 5).maxReconnectAttempts := by omega
    exact (onClose_ge _ hge).2.1
  · have hf := closeIter_fields 5 s hle
    have hge : ¬ (closeIter s 5).reconnectAttempts <
        (closeIter s 5).maxReconnectAttempts := by omega
    exact (onClose_ge _ hge).2.2
  · intro n
    have := closeRunSchedCount_eq n s hle
    rw [this, hA, hM]

/-- Concrete run of claim C1 on the demo instance. -/
theorem reconnect_budget_terminal_witness :
    wsDemo.reconnectAttempts = 0 ∧ wsDemo.maxReconnectAttempts = 5 ∧
    ((onClose (closeIter wsDemo 5)).reconnectScheduled = false ∧
      (onClose (closeIter wsDemo 5)).events =
        [.disconnectEv, .errorEv "Max reconnection attempts reached"] ∧
      containsSub "Max reconnection attempts reached" "Max reconnection attempts" = true) :=
  ⟨rfl, rfl, (reconnect_budget_terminal wsDemo rfl rfl).2.1⟩

/-- Claim C10: the open handler resets the reconnection-attempt counter to 0,
so after every successful socket open a subsequent run of consecutive closes
gets the full `maxReconnectAttempts` budget again: the budget bounds
consecutive failed attempts within one disconnection episode, not cumulative
reconnects over the instance lifetime. -/
theorem onOpen_resets_budget (s : WSState) :
    (onOpen s).state.reconnectAttempts = 0 ∧
    (∀ n, closeRunSchedCount (onOpen s).state n = min n s.maxReconnectAttempts) := by
  constructor
  · rfl
  · intro n
    have h := closeRunSchedCount_eq n (onOpen s).state (by simp [onOpen])
    simpa [onOpen] using h

/-- Claim C7: when `JSON.parse` fails on an inbound frame, the message
handler emits exactly one `error` event, throws nothing (the body is wrapped
in `try`/`catch`), sends nothing, and leaves the instance fields — the
connection flag and the subscription table included — unchanged. -/
theorem malformed_frame_single_error_event (s : WSState) (e : String) :
    (onMessage s (.error e)).events =
      [.errorEv ("Failed to parse WebSocket message: " ++ e)] ∧
    (onMessage s (.error e)).thrown = none ∧
    (onMessage s (.error e)).state = s ∧
    (onMessage s (.error e)).sent = [] :=
  ⟨rfl, rfl, rfl, rfl⟩

/-- Claim C2 (amended): for every REST call issued through the shared axios
client — which is every endpoint method except the login request of
`createSession`, made on a temporary client without the interceptor — a 401
response triggers the response interceptor, after which both stored session
tokens are undefined and `isAuthenticated()` returns false. -/
theorem rest_401_clears_session (s : APIState) :
    (clientCallErrorResponse s 401).1.cst = none ∧
    (clientCallErrorResponse s 401).1.securityToken = none ∧
    isAuthenticated (clientCallErrorResponse s 401).1 = false := by
  refine ⟨rfl, rfl, ?_⟩
  simp [clientCallErrorResponse, interceptResponseError, clearSession,
    isAuthenticated, truthy]

/-- Claim C2 counterexample: `createSession` is a REST call, yet its login
request goes through a temporary axios client created without the response
interceptor, so a 401 there does not clear the session: on an instance that
already holds tokens, after a `createSession` call that receives a 401 the
call throws, both tokens are still present and `isAuthenticated()` is still
true — the claim is false for this call. -/
theorem rest_401_counterexample :
    (createSessionErrorResponse
        { apiKey := some "k", cst := some "a", securityToken := some "b" }
        401 "error.invalid.details").2 =
      some "API Error (401): error.invalid.details" ∧
    (createSessionErrorResponse
        { apiKey := some "k", cst := some "a", securityToken := some "b" }
        401 "error.invalid.details").1.cst = some "a" ∧
    (createSessionErrorResponse
        { apiKey := some "k", cst := some "a", securityToken := some "b" }
        401 "error.invalid.details").1.securityToken = some "b" ∧
    isAuthenticated (createSessionErrorResponse
        { apiKey := some "k", cst := some "a", securityToken := some "b" }
        401 "error.invalid.details").1 = true := by
  refine ⟨?_, rfl, rfl, rfl⟩
  rfl

/-- Claim C3: whenever the socket transitions to open (every reconnect
included), the open handler re-sends every entry currently stored in the
subscription table, in table order: the frames sent at open are exactly the
stored subscription messages, the table itself is unchanged, and nothing is
thrown. -/
theorem onOpen_replays_table (s : WSState) (h : wsIsOpen s = true) :
    (onOpen s).sent = s.subscriptions.map Prod.snd ∧
    (onOpen s).state.subscriptions = s.subscriptions ∧
    (onOpen s).thrown = none := by
  have h1 : wsIsOpen { s with isConnected := true, reconnectAttempts := 0 } = true := by
    simpa [wsIsOpen] using h
  refine ⟨?_, rfl, ?_⟩ <;> simp [onOpen, sendAll_open _ h1]

/-- Concrete run of claim C3: the open demo instance with one stored
subscription re-sends exactly its table on open. -/
theorem onOpen_replays_table_witness :
    wsIsOpen wsDemoSub = true ∧
    (onOpen wsDemoSub).sent = wsDemoSub.subscriptions.map Prod.snd :=
  ⟨by decide, (onOpen_replays_table wsDemoSub (by decide)).1⟩

/-- Claim C4: each of the four subscribe/unsubscribe methods, called while
the socket is not in the OPEN state (`readyState ≠ 1`, or no socket at all),
throws synchronously the error `'WebSocket is not connected'`, whose message
contains "not connected". -/
theorem subscribe_throws_when_not_open (s : WSState) (epics : List String)
    (res : Option (List Resolution)) (t : Option OHLCType)
    (ts : Option (List OHLCType)) (h : s.readyState ≠ some 1) :
    (subscribeToMarketData s epics).thrown = some "WebSocket is not connected" ∧
    (subscribeToOHLCData s epics res t).thrown = some "WebSocket is not connected" ∧
    (unsubscribeFromMarketData s epics).thrown = some "WebSocket is not connected" ∧
    (unsubscribeFromOHLCData s epics res ts).thrown = some "WebSocket is not connected" ∧
    containsSub "WebSocket is not connected" "not connected" = true := by
  refine ⟨?_, ?_, ?_, ?_, by decide⟩ <;>
    simp [subscribeToMarketData, subscribeToOHLCData, unsubscribeFromMarketData,
      unsubscribeFromOHLCData, createMessage, getNextCorrelationId, sendStep,
      wsIsOpen, h]

/-- Concrete run of claim C4 on the never-connected demo instance. -/
theorem subscribe_throws_when_not_open_witness :
    wsDemo.readyState ≠ some 1 ∧
    (subscribeToMarketData wsDemo ["GOLD"]).thrown = some "WebSocket is not connected" :=
  ⟨by decide,
   (subscribe_throws_when_not_open wsDemo ["GOLD"] none none none (by decide)).1⟩

/-- The unsubscribe-side OHLC table key computed from the same epics, the
same resolutions, and the `types` argument holding exactly the type the
subscribe call used (or omitted like it), coincides with the subscribe-side
key. -/
theorem ohlc_key_match (epics : List String) (res : Option (List Resolution))
    (t : Option OHLCType) :
    ohlcUnsubscribeKey epics res (t.map fun x => [x]) =
      ohlcSubscribeKey epics res t := by
  cases t with
  | none => rfl
  | some x => cases x <;> rfl

/-- Claim C5: a subscribe call followed by the matching unsubscribe call —
same topic kind, same epic list, and for OHLC the same resolutions with the
`types` argument carrying the type used at subscribe time — leaves the
subscription table without the entry, and a subsequent reconnect sends
exactly the table contents, so the removed entry is not replayed. -/
theorem unsubscribe_removes_table_entry (s : WSState) (epics : List String)
    (res : Option (List Resolution)) (t : Option OHLCType) :
    mapGet (unsubscribeFromMarketData
        (subscribeToMarketData s epics).state epics).state.subscriptions
      (marketDataKey epics) = none ∧
    ohlcUnsubscribeKey epics res (t.map fun x => [x]) =
      ohlcSubscribeKey epics res t ∧
    mapGet (unsubscribeFromOHLCData (subscribeToOHLCData s epics res t).state
        epics res (t.map fun x => [x])).state.subscriptions
      (ohlcSubscribeKey epics res t) = none ∧
    (∀ s2 : WSState, (onOpen { s2 with readyState := some 1 }).sent =
      s2.subscriptions.map Prod.snd) := by
  refine ⟨?_, ohlc_key_match epics res t, ?_, ?_⟩
  · simp [unsubscribeFromMarketData, subscribeToMarketData, createMessage,
      getNextCorrelationId, mapGet_mapDelete]
  · have hk := ohlc_key_match epics res t
    simp [unsubscribeFromOHLCData, subscribeToOHLCData, createMessage,
      getNextCorrelationId, hk, mapGet_mapDelete]
  · intro s2
    have h1 : wsIsOpen
        { s2 with readyState := some 1, isConnected := true, reconnectAttempts := 0 } =
        true := by simp [wsIsOpen]
    simp [onOpen, sendAll_open _ h1]

/-- Claim C6: on an instance holding cst `'a'` and security token `'b'`
whose socket is open, `subscribeToMarketData(['GOLD'])` sends exactly one
frame (hence its last frame), equal to the envelope
`{destination: 'marketData.subscribe', payload: {epics: ['GOLD']}, cst: 'a',
securityToken: 'b', correlationId: cid}` for some string `cid`. -/
theorem subscribe_gold_frame (s : WSState)
    (h1 : s.cst = "a") (h2 : s.securityToken = "b") (h3 : s.readyState = some 1) :
    ∃ cid : String,
      (subscribeToMarketData s ["GOLD"]).sent =
        [{ destination := "marketData.subscribe"
           correlationId := cid
           cst := "a"
           securityToken := "b"
           payload := some (.marketData ["GOLD"]) }] := by
  refine ⟨Nat.repr (s.correlationIdCounter + 1), ?_⟩
  simp [subscribeToMarketData, createMessage, getNextCorrelationId, sendStep,
    wsIsOpen, h1, h2, h3]

/-- Concrete run of claim C6 on the open demo instance. -/
theorem subscribe_gold_frame_witness :
    wsDemoOpen.cst = "a" ∧ wsDemoOpen.securityToken = "b" ∧
    wsDemoOpen.readyState = some 1 ∧
    (∃ cid : String,
      (subscribeToMarketData wsDemoOpen ["GOLD"]).sent =
        [{ destination := "marketData.subscribe"
           correlationId := cid
           cst := "a"
           securityToken := "b"
           payload := some (.marketData ["GOLD"]) }]) :=
  ⟨rfl, rfl, rfl, subscribe_gold_frame wsDemoOpen rfl rfl rfl⟩

/-- Claim C8: a subscribe call made while the socket is not open throws
`'WebSocket is not connected'`, yet the new entry has already been stored in
the subscription table (the registration is not rolled back), and a later
successful open replays exactly that stored message. -/
theorem subscribe_registered_despite_throw (s : WSState) (epics : List String)
    (res : Option (List Resolution)) (t : Option OHLCType)
    (h : s.readyState ≠ some 1) :
    ((subscribeToMarketData s epics).thrown = some "WebSocket is not connected" ∧
      mapGet (subscribeToMarketData s epics).state.subscriptions (marketDataKey epics) =
        some (createMessage s "marketData.subscribe" (some (.marketData epics))).1 ∧
      (createMessage s "marketData.subscribe" (some (.marketData epics))).1 ∈
        (onOpen { (subscribeToMarketData s epics).state with readyState := some 1 }).sent) ∧
    ((subscribeToOHLCData s epics res t).thrown = some "WebSocket is not connected" ∧
      mapGet (subscribeToOHLCData s epics res t).state.subscriptions
        (ohlcSubscribeKey epics res t) =
        some (createMessage s "OHLCMarketData.subscribe" (some (.ohlcSub epics res t))).1 ∧
      (createMessage s "OHLCMarketData.subscribe" (some (.ohlcSub epics res t))).1 ∈
        (onOpen { (subscribeToOHLCData s epics res t).state with readyState := some 1 }).sent) := by
  have hopen : ∀ s2 : WSState, (onOpen { s2 with readyState := some 1 }).sent =
      s2.subscriptions.map Prod.snd := by
    intro s2
    have h1 : wsIsOpen
        { s2 with readyState := some 1, isConnected := true, reconnectAttempts := 0 } =
        true := by simp [wsIsOpen]
    simp [onOpen, sendAll_open _ h1]
  have hget1 : mapGet (subscribeToMarketData s epics).state.subscriptions
      (marketDataKey epics) =
      some (createMessage s "marketData.subscribe" (some (.marketData epics))).1 := by
    simp [subscribeToMarketData, createMessage, getNextCorrelationId, mapGet_mapSet_self]
  have hget2 : mapGet (subscribeToOHLCData s epics res t).state.subscriptions
      (ohlcSubscribeKey epics res t) =
      some (createMessage s "OHLCMarketData.subscribe" (some (.ohlcSub epics res t))).1 := by
    simp [subscribeToOHLCData, createMessage, getNextCorrelationId, mapGet_mapSet_self]
  refine ⟨⟨?_, hget1, ?_⟩, ⟨?_, hget2, ?_⟩⟩
  · simp [subscribeToMarketData, createMessage, getNextCorrelationId, sendStep,
      wsIsOpen, h]
  · rw [hopen]
    exact mem_map_snd_of_mapGet _ _ _ hget1
  · simp [subscribeToOHLCData, createMessage, getNextCorrelationId, sendStep,
      wsIsOpen, h]
  · rw [hopen]
    exact mem_map_snd_of_mapGet _ _ _ hget2

/-- Concrete run of claim C8 on the never-connected demo instance. -/
theorem subscribe_registered_despite_throw_witness :
    wsDemo.readyState ≠ some 1 ∧
    ((subscribeToMarketData wsDemo ["GOLD"]).thrown = some "WebSocket is not connected" ∧
      mapGet (subscribeToMarketData wsDemo ["GOLD"]).state.subscriptions
        (marketDataKey ["GOLD"]) =
        some (createMessage wsDemo "marketData.subscribe" (some (.marketData ["GOLD"]))).1) :=
  ⟨by decide,
   (subscribe_registered_despite_throw wsDemo ["GOLD"] none none (by decide)).1.1,
   (subscribe_registered_despite_throw wsDemo ["GOLD"] none none (by decide)).1.2.1⟩

/-- Claim C9: a stored subscription message permanently embeds the tokens
current at subscribe time: `updateTokens` changes only the two token fields
of the instance and no stored table entry, a reconnect after the token
update still replays the stored message with the subscribe-time tokens, and
messages created after the update carry the new tokens. -/
theorem updateTokens_preserves_stored (s : WSState) (epics : List String)
    (c2 t2 d : String) (p : Option WSPayload) :
    (updateTokens (subscribeToMarketData s epics).state c2 t2).cst = c2 ∧
    (updateTokens (subscribeToMarketData s epics).state c2 t2).securityToken = t2 ∧
    (updateTokens (subscribeToMarketData s epics).state c2 t2).subscriptions =
      (subscribeToMarketData s epics).state.subscriptions ∧
    (updateTokens (subscribeToMarketData s epics).state c2 t2).correlationIdCounter =
      (subscribeToMarketData s epics).state.correlationIdCounter ∧
    (updateTokens (subscribeToMarketData s epics).state c2 t2).reconnectAttempts =
      (subscribeToMarketData s epics).state.reconnectAttempts ∧
    (updateTokens (subscribeToMarketData s epics).state c2 t2).maxReconnectAttempts =
      (subscribeToMarketData s epics).state.maxReconnectAttempts ∧
    (updateTokens (subscribeToMarketData s epics).state c2 t2).isConnected =
      (subscribeToMarketData s epics).state.isConnected ∧
    (updateTokens (subscribeToMarketData s epics).state c2 t2).readyState =
      (subscribeToMarketData s epics).state.readyState ∧
    mapGet (updateTokens (subscribeToMarketData s epics).state c2 t2).subscriptions
      (marketDataKey epics) =
      some (createMessage s "marketData.subscribe" (some (.marketData epics))).1 ∧
    (createMessage s "marketData.subscribe" (some (.marketData epics))).1.cst = s.cst ∧
    (createMessage s "marketData.subscribe" (some (.marketData epics))).1.securityToken =
      s.securityToken ∧
    (createMessage s "marketData.subscribe" (some (.marketData epics))).1 ∈
      (onOpen { updateTokens (subscribeToMarketData s epics).state c2 t2 with
          readyState := some 1 }).sent ∧
    (createMessage (updateTokens (subscribeToMarketData s epics).state c2 t2) d p).1.cst = c2 ∧
    (createMessage (updateTokens (subscribeToMarketData s epics).state c2 t2) d p).1.securityToken = t2 := by
  have hget : mapGet (updateTokens (subscribeToMarketData s epics).state c2 t2).subscriptions
      (marketDataKey epics) =
      some (createMessage s "marketData.subscribe" (some (.marketData epics))).1 := by
    simp [updateTokens, subscribeToMarketData, createMessage, getNextCorrelationId,
      mapGet_mapSet_self]
  have hopen : ∀ s2 : WSState, (onOpen { s2 with readyState := some 1 }).sent =
      s2.subscriptions.map Prod.snd := by
    intro s2
    have h1 : wsIsOpen
        { s2 with readyState := some 1, isConnected := true, reconnectAttempts := 0 } =
        true := by simp [wsIsOpen]
    simp [onOpen, sendAll_open _ h1]
  refine ⟨rfl, rfl, rfl, rfl, rfl, rfl, rfl, rfl, hget, rfl, rfl, ?_, rfl, rfl⟩
  rw [hopen]
  exact mem_map_snd_of_mapGet _ _ _ hget

end CapitalClient
